import Mathlib

/-!
Shallow embedding of the device capability composition and synchronization
engine of Hue2MQTT (source file src/hue.py).

Python dicts are modelled as insertion-ordered association lists, numeric
values as rationals, fallible dict lookups and arithmetic as Except values
mirroring the exceptions Python raises (KeyError, TypeError,
ZeroDivisionError, AttributeError).  The lazy generator driving
Accessory.parse (any(... for handler in self.handlers)) short-circuits at
the first handler reporting a change; the embedding reproduces that.
-/

/-- Values stored in device property maps and wire payloads. -/
inductive Val where
  | b : Bool → Val
  | s : String → Val
  | q : ℚ → Val
deriving DecidableEq

/-- Exceptions raised by the embedded Python code. -/
inductive PyErr where
  | keyError : String → PyErr
  | typeError : PyErr
  | zeroDivisionError : PyErr
  | attributeError : String → PyErr
deriving DecidableEq

/-- Lookup of a key in a JSON object: raises KeyError when the key is absent. -/
def getKey {α : Type} (o : Option α) (k : String) : Except PyErr α :=
  match o with
  | some v => .ok v
  | none => .error (.keyError k)

/-- Python int() applied to a rational: truncation toward zero. -/
def pyTrunc (x : ℚ) : ℤ :=
  if 0 ≤ x then ⌊x⌋ else -⌊-x⌋

/-- Lookup in an insertion-ordered dict (first, hence unique, occurrence). -/
def dictGet {α : Type} (d : List (String × α)) (k : String) : Option α :=
  (d.find? (fun p => p.1 == k)).map (fun p => p.2)

/-- Python d[k] = v: overwrite in place when k is present, else append. -/
def dictInsert {α : Type} (d : List (String × α)) (k : String) (v : α) :
    List (String × α) :=
  if d.any (fun p => p.1 == k) then
    d.map (fun p => if p.1 == k then (k, v) else p)
  else
    d ++ [(k, v)]

/-- Python d1.update(d2): every entry of d2 written into d1, in order. -/
def dictUpdate {α : Type} (d1 d2 : List (String × α)) : List (String × α) :=
  d2.foldl (fun acc p => dictInsert acc p.1 p.2) d1

/-- The fields of a raw record's nested state object read by the handlers.
An absent field raises KeyError on access. -/
structure RawState where
  «on» : Option Bool := none
  bri : Option ℚ := none
  alert : Option String := none
  ct : Option ℚ := none
  reachable : Option Bool := none
  temperature : Option ℚ := none
  lastupdated : Option String := none
  lightlevel : Option ℚ := none
  dark : Option Bool := none
  daylight : Option Bool := none
  presence : Option Bool := none
  buttonevent : Option ℚ := none
deriving DecidableEq

/-- The fields of a raw record's nested config object read by the handlers. -/
structure RawConfig where
  reachable : Option Bool := none
  battery : Option ℚ := none
  sensitivitymax : Option ℚ := none
deriving DecidableEq

/-- The capabilities.control.ct sub-object: mirek bounds of a light.
The source reads min and max together; they are modelled as one object. -/
structure CtBounds where
  min : ℚ
  max : ℚ
deriving DecidableEq

/-- A raw JSON record for one accessory, restricted to the fields src/hue.py
reads.  Each top-level key may be absent (KeyError on access). -/
structure RawRecord where
  uniqueid : Option String := none
  manufacturername : Option String := none
  type : Option String := none
  productname : Option String := none
  modelid : Option String := none
  name : Option String := none
  config : Option RawConfig := none
  state : Option RawState := none
  capabilities_control_ct : Option CtBounds := none
deriving DecidableEq

/-- Attributes cached on handler instances of one Accessory: the mirek
bounds self._ct_min/self._ct_max of HueColorTemperature and the
self._sensitivity_max of HuePresenceSensor.  Reading them before the
handler's get assigned them raises AttributeError. -/
structure HState where
  ctBounds : Option CtBounds := none
  sensitivityMax : Option ℚ := none
deriving DecidableEq

/-- The keyword arguments of Accessory.set.  Named fields are the keyword
parameters some handler declares; unknown lists the names of any additional
keywords, which every handler absorbs unread. -/
structure Settings where
  name : Option String := none
  «on» : Option Bool := none
  brightness : Option ℚ := none
  alert : Option String := none
  colortemp : Option ℚ := none
  tholddark : Option ℚ := none
  tholdoffset : Option ℚ := none
  sensitivity : Option ℚ := none
  ledindication : Option Bool := none
  unknown : List String := []
deriving DecidableEq

/-- One resource block of a handler's set output: field name to value,
where none is Python's None. -/
abbrev Block := List (String × Option Val)

/-- A handler's set output: resource block name to block content. -/
abbrev Changes := List (String × Block)

/-- The device types accepted by HueGeneric.is_applicable. -/
def hueTypes : List String :=
  ["ZLLLightLevel", "ZLLPresence", "ZLLSwitch", "ZLLTemperature",
   "Color temperature light"]

/-- HueGeneric.is_applicable: vendor is Philips and the type is supported.
The Python and short-circuits, so type is only read when the vendor matches. -/
def HueGeneric.is_applicable (d : RawRecord) : Except PyErr Bool := do
  let m ← getKey d.manufacturername "manufacturername"
  if m = "Philips" then do
    let t ← getKey d.type "type"
    pure (decide (t ∈ hueTypes))
  else
    pure false

/-- HueGeneric.get: reachable (config first, falling back to state),
device_name, device_model and name. -/
def HueGeneric.get (d : RawRecord) : Except PyErr (List (String × Val)) := do
  let cfg ← getKey d.config "config"
  let r ← match cfg.reachable with
    | some b => Except.ok b
    | none => do
        let st ← getKey d.state "state"
        getKey st.reachable "reachable"
  let m ← getKey d.manufacturername "manufacturername"
  let p ← getKey d.productname "productname"
  let mid ← getKey d.modelid "modelid"
  let nm ← getKey d.name "name"
  pure [("reachable", Val.b r),
        ("device_name", Val.s (m ++ " " ++ p)),
        ("device_model", Val.s mid),
        ("name", Val.s nm)]

/-- HueGeneric.set: always contributes the top-level block with the name. -/
def HueGeneric.set (s : Settings) : Except PyErr Changes :=
  .ok [("", [("name", s.name.map Val.s)])]

/-- HueLight.is_applicable: the type is a color temperature light. -/
def HueLight.is_applicable (d : RawRecord) : Except PyErr Bool := do
  let t ← getKey d.type "type"
  pure (decide (t ∈ ["Color temperature light"]))

/-- HueLight.get: on, brightness normalized by dividing bri by 254, alert. -/
def HueLight.get (d : RawRecord) : Except PyErr (List (String × Val)) := do
  let st ← getKey d.state "state"
  let onv ← getKey st.«on» "on"
  let bri ← getKey st.bri "bri"
  let al ← getKey st.alert "alert"
  pure [("on", Val.b onv),
        ("brightness", Val.q (bri / 254)),
        ("alert", Val.s al)]

/-- HueLight.set: the range check on brightness only logs, but the source
computes int(brightness * 254) unconditionally, so a missing brightness
raises TypeError (None * 254). -/
def HueLight.set (s : Settings) : Except PyErr Changes :=
  match s.brightness with
  | none => .error .typeError
  | some b =>
      .ok [("state", [("on", s.«on».map Val.b),
                      ("bri", some (Val.q ((pyTrunc (b * 254) : ℤ) : ℚ))),
                      ("alert", s.alert.map Val.s)])]

/-- HueColorTemperature.is_applicable: same type test as HueLight. -/
def HueColorTemperature.is_applicable (d : RawRecord) : Except PyErr Bool := do
  let t ← getKey d.type "type"
  pure (decide (t ∈ ["Color temperature light"]))

/-- HueColorTemperature.get: caches the mirek bounds from capabilities
before reading state.ct, then converts via int(1000000 / ct); a ct of zero
raises ZeroDivisionError after the bounds were already stored. -/
def HueColorTemperature.get (hs : HState) (d : RawRecord) :
    HState × Except PyErr (List (String × Val)) :=
  match d.capabilities_control_ct with
  | none => (hs, .error (.keyError "capabilities"))
  | some bds =>
      ({ hs with ctBounds := some bds },
       do
         let st ← getKey d.state "state"
         let ct ← getKey st.ct "ct"
         if ct = 0 then .error .zeroDivisionError
         else pure [("colortemp", Val.q ((pyTrunc (1000000 / ct) : ℤ) : ℚ))])

/-- HueColorTemperature.set: mirad = int(1000000 / colortemp) is computed
first (ZeroDivisionError on zero), then the cached bounds are read for the
log-only range check (AttributeError when no get ran before). -/
def HueColorTemperature.set (bounds : Option CtBounds) (s : Settings) :
    Except PyErr Changes :=
  match s.colortemp with
  | none => .ok [("state", [])]
  | some k =>
      if k = 0 then .error .zeroDivisionError
      else
        match bounds with
        | none => .error (.attributeError "_ct_min")
        | some _ =>
            .ok [("state", [("ct", some (Val.q ((pyTrunc (1000000 / k) : ℤ) : ℚ)))])]

/-- HueBatteryStatus.is_applicable: Philips vendor and a battery field in
config (the config access raises KeyError when config is absent). -/
def HueBatteryStatus.is_applicable (d : RawRecord) : Except PyErr Bool := do
  let m ← getKey d.manufacturername "manufacturername"
  if m = "Philips" then do
    let cfg ← getKey d.config "config"
    pure cfg.battery.isSome
  else
    pure false

/-- HueBatteryStatus.get: the battery level from config. -/
def HueBatteryStatus.get (d : RawRecord) : Except PyErr (List (String × Val)) := do
  let cfg ← getKey d.config "config"
  let b ← getKey cfg.battery "battery"
  pure [("battery", Val.q b)]

/-- HueTemperatureSensor.is_applicable: Philips vendor and a temperature
field in state; data.get with a default raises nothing on a missing state. -/
def HueTemperatureSensor.is_applicable (d : RawRecord) : Except PyErr Bool := do
  let m ← getKey d.manufacturername "manufacturername"
  if m = "Philips" then
    pure (match d.state with
          | some st => st.temperature.isSome
          | none => false)
  else
    pure false

/-- HueTemperatureSensor.get: temperature in Celsius (value / 100). -/
def HueTemperatureSensor.get (d : RawRecord) :
    Except PyErr (List (String × Val)) := do
  let st ← getKey d.state "state"
  let t ← getKey st.temperature "temperature"
  let lu ← getKey st.lastupdated "lastupdated"
  pure [("temperature", Val.q (t / 100)), ("lastupdated", Val.s lu)]

/-- HueLightSensor.is_applicable: Philips vendor and type ZLLLightLevel. -/
def HueLightSensor.is_applicable (d : RawRecord) : Except PyErr Bool := do
  let m ← getKey d.manufacturername "manufacturername"
  if m = "Philips" then do
    let t ← getKey d.type "type"
    pure (decide (t = "ZLLLightLevel"))
  else
    pure false

/-- HueLightSensor.get: lightlevel, dark, daylight, lastupdated. -/
def HueLightSensor.get (d : RawRecord) : Except PyErr (List (String × Val)) := do
  let st ← getKey d.state "state"
  let ll ← getKey st.lightlevel "lightlevel"
  let dk ← getKey st.dark "dark"
  let dl ← getKey st.daylight "daylight"
  let lu ← getKey st.lastupdated "lastupdated"
  pure [("lightlevel", Val.q ll), ("dark", Val.b dk),
        ("daylight", Val.b dl), ("lastupdated", Val.s lu)]

/-- HueLightSensor.set: threshold configuration block. -/
def HueLightSensor.set (s : Settings) : Except PyErr Changes :=
  .ok [("config", [("tholddark", s.tholddark.map Val.q),
                   ("tholdoffset", s.tholdoffset.map Val.q)])]

/-- HuePresenceSensor.is_applicable: Philips vendor and type ZLLPresence. -/
def HuePresenceSensor.is_applicable (d : RawRecord) : Except PyErr Bool := do
  let m ← getKey d.manufacturername "manufacturername"
  if m = "Philips" then do
    let t ← getKey d.type "type"
    pure (decide (t = "ZLLPresence"))
  else
    pure false

/-- HuePresenceSensor.get: caches config.sensitivitymax, then reads
presence and lastupdated from state. -/
def HuePresenceSensor.get (hs : HState) (d : RawRecord) :
    HState × Except PyErr (List (String × Val)) :=
  match d.config with
  | none => (hs, .error (.keyError "config"))
  | some cfg =>
      match cfg.sensitivitymax with
      | none => (hs, .error (.keyError "sensitivitymax"))
      | some sm =>
          ({ hs with sensitivityMax := some sm },
           do
             let st ← getKey d.state "state"
             let p ← getKey st.presence "presence"
             let lu ← getKey st.lastupdated "lastupdated"
             pure [("presence", Val.b p), ("lastupdated", Val.s lu)])

/-- HuePresenceSensor.set: a supplied sensitivity reads the cached maximum
for a log-only check (AttributeError when no get ran before). -/
def HuePresenceSensor.set (smax : Option ℚ) (s : Settings) :
    Except PyErr Changes :=
  match s.sensitivity with
  | some _ =>
      match smax with
      | none => .error (.attributeError "_sensitivity_max")
      | some _ =>
          .ok [("config", [("sensitivity", s.sensitivity.map Val.q),
                           ("ledindication", s.ledindication.map Val.b)])]
  | none =>
      .ok [("config", [("sensitivity", none),
                       ("ledindication", s.ledindication.map Val.b)])]

/-- HueDimmerSwitch.is_applicable: Philips vendor and type ZLLSwitch. -/
def HueDimmerSwitch.is_applicable (d : RawRecord) : Except PyErr Bool := do
  let m ← getKey d.manufacturername "manufacturername"
  if m = "Philips" then do
    let t ← getKey d.type "type"
    pure (decide (t = "ZLLSwitch"))
  else
    pure false

/-- HueDimmerSwitch.get: buttonevent and lastupdated. -/
def HueDimmerSwitch.get (d : RawRecord) : Except PyErr (List (String × Val)) := do
  let st ← getKey d.state "state"
  let be ← getKey st.buttonevent "buttonevent"
  let lu ← getKey st.lastupdated "lastupdated"
  pure [("buttonevent", Val.q be), ("lastupdated", Val.s lu)]

/-- Tags naming the eight handler classes of src/hue.py. -/
inductive HandlerTag where
  | generic
  | light
  | colortemp
  | battery
  | dimmer
  | lightsensor
  | presence
  | tempsensor
deriving DecidableEq

/-- The all_handlers list of Accessory.from_json, in source order. -/
def allHandlers : List HandlerTag :=
  [.generic, .light, .colortemp, .battery, .dimmer, .lightsensor,
   .presence, .tempsensor]

/-- Dispatch of is_applicable over the handler classes. -/
def Handler.is_applicable : HandlerTag → RawRecord → Except PyErr Bool
  | .generic, d => HueGeneric.is_applicable d
  | .light, d => HueLight.is_applicable d
  | .colortemp, d => HueColorTemperature.is_applicable d
  | .battery, d => HueBatteryStatus.is_applicable d
  | .dimmer, d => HueDimmerSwitch.is_applicable d
  | .lightsensor, d => HueLightSensor.is_applicable d
  | .presence, d => HuePresenceSensor.is_applicable d
  | .tempsensor, d => HueTemperatureSensor.is_applicable d

/-- Dispatch of get over the handler classes, threading the cached
per-instance attributes. -/
def Handler.get : HandlerTag → HState → RawRecord →
    HState × Except PyErr (List (String × Val))
  | .generic, hs, d => (hs, HueGeneric.get d)
  | .light, hs, d => (hs, HueLight.get d)
  | .colortemp, hs, d => HueColorTemperature.get hs d
  | .battery, hs, d => (hs, HueBatteryStatus.get d)
  | .dimmer, hs, d => (hs, HueDimmerSwitch.get d)
  | .lightsensor, hs, d => (hs, HueLightSensor.get d)
  | .presence, hs, d => HuePresenceSensor.get hs d
  | .tempsensor, hs, d => (hs, HueTemperatureSensor.get d)

/-- Dispatch of set over the handler classes.  The read-only handlers
return an empty dict. -/
def Handler.set : HandlerTag → HState → Settings → Except PyErr Changes
  | .generic, _, s => HueGeneric.set s
  | .light, _, s => HueLight.set s
  | .colortemp, hs, s => HueColorTemperature.set hs.ctBounds s
  | .battery, _, _ => .ok []
  | .dimmer, _, _ => .ok []
  | .lightsensor, _, s => HueLightSensor.set s
  | .presence, hs, s => HuePresenceSensor.set hs.sensitivityMax s
  | .tempsensor, _, _ => .ok []

/-- An Accessory: category, index, unique id, the immutable handler list,
the mutable property map and the handler-instance attribute cache. -/
structure Accessory where
  kind : String
  index : String
  uid : Option String
  handlers : List HandlerTag
  data : List (String × Val)
  hstate : HState
deriving DecidableEq

/-- The helper _update_changed of Accessory.parse: write every entry of d2
into d1, reporting whether any key was new or its value differed. -/
def updateChanged (d1 d2 : List (String × Val)) : List (String × Val) × Bool :=
  d2.foldl
    (fun acc kv =>
      (dictInsert acc.1 kv.1 kv.2,
       acc.2 || decide (dictGet acc.1 kv.1 ≠ some kv.2)))
    (d1, false)

/-- The loop of Accessory.parse: any over a lazy generator, so the walk
stops at the first handler whose _update_changed reported a change; later
handlers are not consulted on that call.  A handler error propagates. -/
def parseGo (d : RawRecord) : Accessory → List HandlerTag →
    Accessory × Except PyErr Bool
  | a, [] => (a, .ok false)
  | a, h :: rest =>
      match Handler.get h a.hstate d with
      | (hs, .error e) => ({ a with hstate := hs }, .error e)
      | (hs, .ok vals) =>
          let ud := updateChanged a.data vals
          let a2 : Accessory := { a with hstate := hs, data := ud.1 }
          if ud.2 then (a2, .ok true) else parseGo d a2 rest

/-- Accessory.parse: update the property map from a raw record, reporting
whether anything changed. -/
def Accessory.parse (a : Accessory) (d : RawRecord) :
    Accessory × Except PyErr Bool :=
  parseGo d a a.handlers

/-- The handler-list comprehension of Accessory.from_json: keep the
handlers whose is_applicable accepts the record, propagating errors. -/
def filterApplicable : List HandlerTag → RawRecord →
    Except PyErr (List HandlerTag)
  | [], _ => .ok []
  | h :: rest, d => do
      let b ← Handler.is_applicable h d
      let tl ← filterApplicable rest d
      pure (if b then h :: tl else tl)

/-- Accessory.from_json: records without a uniqueid or failing
HueGeneric.is_applicable yield no accessory; otherwise the applicable
handlers are collected and the status parsed once. -/
def Accessory.from_json (kind index : String) (d : RawRecord) :
    Except PyErr (Option Accessory) :=
  match d.uniqueid with
  | none => .ok none
  | some uid =>
      match HueGeneric.is_applicable d with
      | .error e => .error e
      | .ok false => .ok none
      | .ok true =>
          match filterApplicable allHandlers d with
          | .error e => .error e
          | .ok hs =>
              let a0 : Accessory :=
                { kind := kind, index := index, uid := some uid,
                  handlers := hs, data := [], hstate := {} }
              match Accessory.parse a0 d with
              | (_, .error e) => .error e
              | (a1, .ok _) => .ok (some a1)

/-- The null-stripping comprehension of Accessory.set: keep only the
entries of a block whose value is not None. -/
def stripBlock (b : Block) : List (String × Val) :=
  b.filterMap (fun p => p.2.map (fun v => (p.1, v)))

/-- One merge step of Accessory.set: for every block of one handler's
output, changes.setdefault(block, dict()) followed by dict.update. -/
def mergeOne (changes : Changes) (hc : Changes) : Changes :=
  hc.foldl
    (fun acc p => dictInsert acc p.1 (dictUpdate ((dictGet acc p.1).getD []) p.2))
    changes

/-- The first loop of Accessory.set: every handler's set output merged
into one per-block dict, in handler order. -/
def collectChanges (hs : HState) (handlers : List HandlerTag)
    (s : Settings) : Except PyErr Changes :=
  handlers.foldlM
    (fun acc h => do
      let hc ← Handler.set h hs s
      pure (mergeOne acc hc))
    []

/-- One PUT request issued to the bridge transport. -/
structure Write where
  kind : String
  index : String
  block : String
  payload : List (String × Val)
deriving DecidableEq

/-- Accessory.set: merge all handlers' outputs, strip None values per
block, and issue one write per block left non-empty, in block order. -/
def Accessory.set (a : Accessory) (s : Settings) : Except PyErr (List Write) := do
  let changes ← collectChanges a.hstate a.handlers s
  pure (changes.filterMap
    (fun p =>
      let sb := stripBlock p.2
      if sb.isEmpty then none
      else some { kind := a.kind, index := a.index, block := p.1, payload := sb }))

/-- Accessory.set as a transition on the accessory: the source method
never assigns self.data (or any other attribute), so the accessory is
returned unchanged alongside the issued writes. -/
def Accessory.setFull (a : Accessory) (s : Settings) :
    Accessory × Except PyErr (List Write) :=
  (a, Accessory.set a s)

/-- The record of spec Scenario A, exactly as the spec writes it: vendor,
type, state and capabilities only; no uniqueid, config or identity fields. -/
def recA : RawRecord :=
  { manufacturername := some "Philips"
    type := some "Color temperature light"
    state := some { «on» := some true, bri := some 127, alert := some "none",
                    ct := some 370 }
    capabilities_control_ct := some { min := 153, max := 500 } }

/-- The Scenario A record completed with the uniqueid, identity fields and
config object that Accessory.from_json and HueGeneric.get require. -/
def recX : RawRecord :=
  { uniqueid := some "00:17:88:01"
    manufacturername := some "Philips"
    type := some "Color temperature light"
    productname := some "Hue bulb"
    modelid := some "LTW001"
    name := some "Desk"
    config := some { reachable := some true }
    state := some { «on» := some true, bri := some 127, alert := some "none",
                    ct := some 370 }
    capabilities_control_ct := some { min := 153, max := 500 } }

/-- The color temperature light accessory built by from_json on recX. -/
def devX : Accessory :=
  match Accessory.from_json "lights" "1" recX with
  | .ok (some a) => a
  | _ => { kind := "", index := "", uid := none, handlers := [], data := [],
           hstate := {} }

/-- The accessory devX after one further refresh with the same record. -/
def devX1 : Accessory := (Accessory.parse devX recX).1

/-- The accessory devX after two further refreshes with the same record. -/
def devX2 : Accessory := (Accessory.parse devX1 recX).1

/-- The record recX with state.ct set to zero. -/
def recX0 : RawRecord :=
  { recX with state := some { «on» := some true, bri := some 127,
                              alert := some "none", ct := some 0 } }

/-- A record carrying only a state.ct of zero and ct bounds. -/
def recCt0 : RawRecord :=
  { state := some { ct := some 0 },
    capabilities_control_ct := some { min := 153, max := 500 } }

/-- A record carrying a state.ct of 369 mirek and ct bounds. -/
def rec369 : RawRecord :=
  { state := some { ct := some 369 },
    capabilities_control_ct := some { min := 153, max := 500 } }

/-- A presence sensor record with battery and sensitivity information. -/
def recP : RawRecord :=
  { uniqueid := some "00:17:88:02"
    manufacturername := some "Philips"
    type := some "ZLLPresence"
    productname := some "Hue motion sensor"
    modelid := some "SML001"
    name := some "Hall"
    config := some { reachable := some true, battery := some 100,
                     sensitivitymax := some 2 }
    state := some { presence := some false, lastupdated := some "2020" } }

/-- The presence sensor accessory built by from_json on recP. -/
def devP : Accessory :=
  match Accessory.from_json "sensors" "7" recP with
  | .ok (some a) => a
  | _ => { kind := "", index := "", uid := none, handlers := [], data := [],
           hstate := {} }

/-- A record of a foreign vendor, otherwise well-formed. -/
def recI : RawRecord :=
  { uniqueid := some "u1"
    manufacturername := some "IKEA"
    type := some "Color temperature light" }

/-- Truncation of a quotient of naturals agrees with natural division. -/
theorem pyTrunc_natCast_div (a b : ℕ) :
    pyTrunc ((a : ℚ) / (b : ℚ)) = ((a / b : ℕ) : ℤ) := by
  unfold pyTrunc
  rw [if_pos (by positivity)]
  exact_mod_cast Rat.floor_natCast_div_natCast a b

/-- Value of the mirek-to-Kelvin conversion at 370 mirek. -/
theorem pyTrunc_ct_370 : ((pyTrunc ((1000000 : ℚ) / 370) : ℤ) : ℚ) = 2702 := by
  rw [show ((1000000 : ℚ)) = ((1000000 : ℕ) : ℚ) from by norm_num,
      show ((370 : ℚ)) = ((370 : ℕ) : ℚ) from by norm_num,
      pyTrunc_natCast_div]
  norm_num

/-- Value of the Kelvin-to-mirek conversion at 2703 Kelvin. -/
theorem pyTrunc_ct_2703 : ((pyTrunc ((1000000 : ℚ) / 2703) : ℤ) : ℚ) = 369 := by
  rw [show ((1000000 : ℚ)) = ((1000000 : ℕ) : ℚ) from by norm_num,
      show ((2703 : ℚ)) = ((2703 : ℕ) : ℚ) from by norm_num,
      pyTrunc_natCast_div]
  norm_num

/-- Value of the mirek-to-Kelvin conversion at 369 mirek. -/
theorem pyTrunc_ct_369 : ((pyTrunc ((1000000 : ℚ) / 369) : ℤ) : ℚ) = 2710 := by
  rw [show ((1000000 : ℚ)) = ((1000000 : ℕ) : ℚ) from by norm_num,
      show ((369 : ℚ)) = ((369 : ℕ) : ℚ) from by norm_num,
      pyTrunc_natCast_div]
  norm_num

/-- Value of the brightness scaling at brightness one fifth. -/
theorem pyTrunc_bri_02 : ((pyTrunc ((1 / 5 : ℚ) * 254) : ℤ) : ℚ) = 50 := by
  rw [show ((1 / 5 : ℚ) * 254) = ((254 : ℕ) : ℚ) / ((5 : ℕ) : ℚ) from by norm_num,
      pyTrunc_natCast_div]
  norm_num

/-- Construction of devX: from_json stops parsing after the first handler
because HueGeneric already reported a change, so only the four generic
keys are stored and no ct bounds are cached. -/
theorem devX_eq : devX =
    { kind := "lights", index := "1", uid := some "00:17:88:01",
      handlers := [.generic, .light, .colortemp],
      data := [("reachable", Val.b true),
               ("device_name", Val.s "Philips Hue bulb"),
               ("device_model", Val.s "LTW001"),
               ("name", Val.s "Desk")],
      hstate := {} } := rfl

/-- One refresh of devX adds only the HueLight keys: the change they cause
short-circuits the walk before HueColorTemperature runs. -/
theorem devX1_eq : devX1 =
    { kind := "lights", index := "1", uid := some "00:17:88:01",
      handlers := [.generic, .light, .colortemp],
      data := [("reachable", Val.b true),
               ("device_name", Val.s "Philips Hue bulb"),
               ("device_model", Val.s "LTW001"),
               ("name", Val.s "Desk"),
               ("on", Val.b true),
               ("brightness", Val.q (127 / 254)),
               ("alert", Val.s "none")],
      hstate := {} } := rfl

/-- Only the second refresh of devX reaches HueColorTemperature, storing
colortemp 2702 and caching the mirek bounds. -/
theorem devX2_eq : devX2 =
    { kind := "lights", index := "1", uid := some "00:17:88:01",
      handlers := [.generic, .light, .colortemp],
      data := [("reachable", Val.b true),
               ("device_name", Val.s "Philips Hue bulb"),
               ("device_model", Val.s "LTW001"),
               ("name", Val.s "Desk"),
               ("on", Val.b true),
               ("brightness", Val.q (127 / 254)),
               ("alert", Val.s "none"),
               ("colortemp", Val.q 2702)],
      hstate := { ctBounds := some { min := 153, max := 500 },
                  sensitivityMax := none } } := by
  rw [show devX2 = (Accessory.parse devX1 recX).1 from rfl, devX1_eq]
  simp [Accessory.parse, parseGo, Handler.get, HueGeneric.get, HueLight.get,
        HueColorTemperature.get, getKey, recX, updateChanged, dictGet,
        dictInsert, Except.instMonad, Except.bind, Except.map, Except.pure,
        Bind.bind, Pure.pure, pyTrunc_ct_370]

/-- C1: Refuted on the code.  After a refresh of devX (a color temperature
light whose handler list contains HueColorTemperature), the stored property
map has no colortemp key even though HueColorTemperature.get extracts one
from the very record used: the lazy any() in Accessory.parse stops at the
first handler reporting a change, so the stored keys are not the union of
all handlers' extract outputs. -/
theorem c1_refresh_skips_later_handlers :
    devX.handlers = [.generic, .light, .colortemp] ∧
    (Accessory.parse devX recX).2 = .ok true ∧
    dictGet devX1.data "colortemp" = none ∧
    (HueColorTemperature.get devX1.hstate recX).2 =
      .ok [("colortemp", Val.q 2702)] := by
  refine ⟨rfl, rfl, rfl, ?_⟩
  simp [HueColorTemperature.get, getKey, recX, devX1_eq, Except.instMonad,
        Except.bind, Except.map, Except.pure, Bind.bind, Pure.pure,
        pyTrunc_ct_370]

/-- C2: Refuted on the code.  Refreshing devX twice in a row with the
identical record recX reports changed on both calls, and the second call
does mutate the snapshot (it adds the HueLight keys; a third call would
still add colortemp): Accessory.parse is not idempotent because the lazy
any() leaves later handlers unapplied while a change is pending. -/
theorem c2_second_refresh_reports_change :
    (Accessory.parse devX recX).2 = .ok true ∧
    (Accessory.parse devX1 recX).2 = .ok true ∧
    dictGet devX1.data "colortemp" = none ∧
    dictGet devX2.data "colortemp" = some (Val.q 2702) := by
  refine ⟨rfl, ?_, rfl, ?_⟩
  · rw [devX1_eq]
    simp [Accessory.parse, parseGo, Handler.get, HueGeneric.get, HueLight.get,
          HueColorTemperature.get, getKey, recX, updateChanged, dictGet,
          dictInsert, Except.instMonad, Except.bind, Except.map, Except.pure,
          Bind.bind, Pure.pure]
  · rw [devX2_eq]
    rfl

/-- C3 counterexample: applySettings with brightness one fifth on the
color temperature light devX issues one write to block state whose payload
is bri 50, not bri 51: int(0.2 * 254) truncates 50.8 to 50. -/
theorem c3_counterexample :
    Accessory.set devX { brightness := some (1 / 5) } =
      .ok [{ kind := "lights", index := "1", block := "state",
             payload := [("bri", Val.q 50)] }] ∧
    (50 : ℚ) ≠ 51 := by
  constructor
  · calc Accessory.set devX { brightness := some (1 / 5) }
        = .ok [{ kind := "lights", index := "1", block := "state",
                 payload := [("bri",
                   Val.q ((pyTrunc ((1 / 5 : ℚ) * 254) : ℤ) : ℚ))] }] := rfl
      _ = .ok [{ kind := "lights", index := "1", block := "state",
                 payload := [("bri", Val.q 50)] }] := by rw [pyTrunc_bri_02]
  · norm_num

/-- C3 amended: on every Device with the color-temperature-light handler
list, applySettings with exactly brightness one fifth issues exactly one
transport write, addressed to block state, and the payload left after
null-valued entries are dropped is exactly bri 50 (0.2 times 254 is 50.8,
truncated by int()). -/
theorem c3_single_write_bri_50 (a : Accessory)
    (h : a.handlers = [.generic, .light, .colortemp]) :
    Accessory.set a { brightness := some (1 / 5) } =
      .ok [{ kind := a.kind, index := a.index, block := "state",
             payload := [("bri", Val.q 50)] }] := by
  obtain ⟨kind, index, uid, handlers, data, hstate⟩ := a
  simp only at h
  subst h
  calc Accessory.set
        { kind := kind, index := index, uid := uid,
          handlers := [.generic, .light, .colortemp], data := data,
          hstate := hstate } { brightness := some (1 / 5) }
      = .ok [{ kind := kind, index := index, block := "state",
               payload := [("bri",
                 Val.q ((pyTrunc ((1 / 5 : ℚ) * 254) : ℤ) : ℚ))] }] := rfl
    _ = .ok [{ kind := kind, index := index, block := "state",
               payload := [("bri", Val.q 50)] }] := by rw [pyTrunc_bri_02]

/-- C3 witness: the amended statement evaluated on the concrete device devX. -/
theorem c3_witness :
    devX.handlers = [.generic, .light, .colortemp] ∧
    Accessory.set devX { brightness := some (1 / 5) } =
      .ok [{ kind := "lights", index := "1", block := "state",
             payload := [("bri", Val.q 50)] }] :=
  ⟨rfl, c3_single_write_bri_50 devX rfl⟩

/-- C4: Refuted on the code for light devices.  A set call carrying only an
unknown field name raises TypeError on devX, because HueLight.set computes
int(brightness * 254) even when brightness was not supplied; on a device
without the HueLight handler (the presence sensor devP) the same call is
ignored by every handler and issues zero writes, as the claim expects. -/
theorem c4_unknown_keys_raise_typeerror :
    Accessory.set devX { unknown := ["foo"] } = .error .typeError ∧
    devP.handlers = [.generic, .battery, .presence] ∧
    Accessory.set devP { unknown := ["foo"] } = .ok [] :=
  ⟨rfl, rfl, rfl⟩

/-- C5: Refuted on the code.  The Scenario A record as the spec writes it
has no uniqueid, so from_json yields no Device at all; on the record
completed with identity fields, after construction and one refresh the
snapshot holds brightness one half but still no colortemp, and colortemp
2702 appears only after a second refresh, again because of the lazy any()
in Accessory.parse. -/
theorem c5_scenario_a_evaluation :
    Accessory.from_json "lights" "1" recA = .ok none ∧
    dictGet devX1.data "brightness" = some (Val.q (127 / 254)) ∧
    (127 : ℚ) / 254 = 1 / 2 ∧
    dictGet devX1.data "colortemp" = none ∧
    dictGet devX2.data "colortemp" = some (Val.q 2702) := by
  refine ⟨rfl, rfl, by norm_num, rfl, ?_⟩
  rw [devX2_eq]
  rfl

/-- C6 counterexample: in the merge Accessory.set performs, a later
handler's null entry for a field does erase an earlier handler's non-null
value for that field: dict.update overwrites with None and the subsequent
null stripping then drops the field from the issued block. -/
theorem c6_counterexample :
    mergeOne [("", [("name", some (Val.s "A"))])] [("", [("name", none)])] =
      [("", [("name", none)])] ∧
    stripBlock [("name", (none : Option Val))] = [] :=
  ⟨rfl, rfl⟩

/-- C6 amended: when Accessory.set merges two handler outputs that address
the same field of the same resource block, the later handler's entry wins
regardless of nullity, and null-valued entries are dropped only after the
merge; hence a later null entry erases an earlier non-null one from the
issued write. -/
theorem c6_merge_last_entry_wins (blk f : String) (v w : Option Val) :
    stripBlock ((dictGet
        (mergeOne (mergeOne [] [(blk, [(f, v)])]) [(blk, [(f, w)])])
        blk).getD []) =
      (w.map (fun x => (f, x))).toList := by
  cases w <;>
    simp [mergeOne, dictUpdate, dictInsert, dictGet, stripBlock]

/-- C7 counterexample: the conversions truncate instead of rounding, and
the Kelvin round trip through the wire unit is off by more than one:
2703 Kelvin is written as 369 mirek (round would give 370), and reading
369 mirek back yields 2710 Kelvin, seven away from 2703. -/
theorem c7_counterexample :
    HueColorTemperature.set (some { min := 153, max := 500 })
        { colortemp := some 2703 } =
      .ok [("state", [("ct", some (Val.q 369))])] ∧
    (HueColorTemperature.get {} rec369).2 = .ok [("colortemp", Val.q 2710)] ∧
    (1 : ℤ) < |(2710 : ℤ) - 2703| := by
  refine ⟨?_, ?_, by norm_num⟩
  · simp [HueColorTemperature.set, (by norm_num : ((2703 : ℚ)) ≠ 0),
          pyTrunc_ct_2703]
  · simp [HueColorTemperature.get, getKey, rec369,
          (by norm_num : ((369 : ℚ)) ≠ 0), Except.instMonad, Except.bind,
          Except.map, Except.pure, Bind.bind, Pure.pure, pyTrunc_ct_369]

/-- C7 amended: both directions of the ColorTemperature conversion use
int() truncation of 1000000 divided by the input; for every Kelvin value
between 1 and 1000000, writing yields mirek m equal to the truncated
quotient and reading m back yields a Kelvin value at least as large as the
original (but possibly more than 1 larger, as the counterexample shows). -/
theorem c7_truncated_roundtrip (k : ℕ) (h1 : 1 ≤ k) (h2 : k ≤ 1000000) :
    ∃ m k2 : ℕ,
      m = 1000000 / k ∧ k2 = 1000000 / m ∧ 1 ≤ m ∧
      HueColorTemperature.set (some { min := 153, max := 500 })
          { colortemp := some (k : ℚ) } =
        .ok [("state", [("ct", some (Val.q (m : ℚ)))])] ∧
      (HueColorTemperature.get {}
          { state := some { ct := some (m : ℚ) },
            capabilities_control_ct := some { min := 153, max := 500 } }).2 =
        .ok [("colortemp", Val.q (k2 : ℚ))] ∧
      k ≤ k2 := by
  have hk : 0 < k := h1
  have hm1 : 1 ≤ 1000000 / k := (Nat.one_le_div_iff hk).mpr h2
  have hk0 : ((k : ℚ)) ≠ 0 := Nat.cast_ne_zero.mpr (by omega)
  have hm0 : (((1000000 / k : ℕ) : ℚ)) ≠ 0 := Nat.cast_ne_zero.mpr (by omega)
  have hcast : ((1000000 : ℚ)) = ((1000000 : ℕ) : ℚ) := by norm_num
  refine ⟨1000000 / k, 1000000 / (1000000 / k), rfl, rfl, hm1, ?_, ?_, ?_⟩
  · simp [HueColorTemperature.set, hk0]
    rw [hcast, pyTrunc_natCast_div]
    norm_cast
  · simp [HueColorTemperature.get, getKey, hm0, Except.instMonad, Except.bind,
          Except.map, Except.pure, Bind.bind, Pure.pure]
    rw [hcast, pyTrunc_natCast_div]
    norm_cast
  · rw [Nat.le_div_iff_mul_le hm1]
    calc k * (1000000 / k) = (1000000 / k) * k := Nat.mul_comm _ _
      _ ≤ 1000000 := Nat.div_mul_le_self _ _

/-- C7 witness: the amended statement evaluated at 2703 Kelvin. -/
theorem c7_witness :
    1 ≤ 2703 ∧ 2703 ≤ 1000000 ∧
    (∃ m k2 : ℕ,
      m = 1000000 / 2703 ∧ k2 = 1000000 / m ∧ 1 ≤ m ∧
      HueColorTemperature.set (some { min := 153, max := 500 })
          { colortemp := some ((2703 : ℕ) : ℚ) } =
        .ok [("state", [("ct", some (Val.q (m : ℚ)))])] ∧
      (HueColorTemperature.get {}
          { state := some { ct := some ((m : ℕ) : ℚ) },
            capabilities_control_ct := some { min := 153, max := 500 } }).2 =
        .ok [("colortemp", Val.q (k2 : ℚ))] ∧
      2703 ≤ k2) :=
  ⟨by norm_num, by norm_num,
   c7_truncated_roundtrip 2703 (by norm_num) (by norm_num)⟩

/-- C8: For every record carrying a uniqueid whose manufacturer name is
present but differs from Philips, or whose device type is present but not
in the supported type set, Accessory.from_json yields no Device and raises
no error. -/
theorem c8_unsupported_records_excluded (kind index : String)
    (d : RawRecord) (uid m : String)
    (hu : d.uniqueid = some uid) (hm : d.manufacturername = some m)
    (h : m ≠ "Philips" ∨ ∃ t, d.type = some t ∧ t ∉ hueTypes) :
    Accessory.from_json kind index d = .ok none := by
  have happ : HueGeneric.is_applicable d = .ok false := by
    by_cases hmp : m = "Philips"
    · rcases h with hne | ⟨t, ht, hnt⟩
      · exact absurd hmp hne
      · subst hmp
        simp [HueGeneric.is_applicable, getKey, hm, ht, hnt, Except.instMonad,
              Except.bind, Except.map, Except.pure, Bind.bind, Pure.pure]
    · simp [HueGeneric.is_applicable, getKey, hm, hmp, Except.instMonad,
            Except.bind, Except.map, Except.pure, Bind.bind, Pure.pure]
  unfold Accessory.from_json
  rw [hu, happ]

/-- C8 witness: the foreign-vendor record recI is silently excluded. -/
theorem c8_witness : Accessory.from_json "lights" "2" recI = .ok none :=
  c8_unsupported_records_excluded "lights" "2" recI "u1" "IKEA" rfl rfl
    (Or.inl (by decide))

/-- C9: Accessory.set never assigns to the stored property map: the
snapshot after the call equals the snapshot before it, for every device
and every settings mapping, whatever writes were issued or error raised. -/
theorem c9_set_preserves_snapshot (a : Accessory) (s : Settings) :
    (Accessory.setFull a s).1.data = a.data := rfl

/-- C10 counterexample: on the color temperature light devX, applySettings
with colortemp zero does not raise ZeroDivisionError: HueLight.set raises
TypeError first (int(None * 254) on the missing brightness), before the
colortemp handler ever runs. -/
theorem c10_counterexample :
    Accessory.set devX { colortemp := some 0 } = .error .typeError ∧
    PyErr.typeError ≠ PyErr.zeroDivisionError :=
  ⟨rfl, by decide⟩

/-- C10 amended: the unguarded divisions do raise ZeroDivisionError where
they are reached: HueColorTemperature.get on a record with state.ct zero
raises it, a refresh of the fully synchronized device devX2 with such a
record propagates it, and HueColorTemperature.set called with colortemp
zero raises it before any write; but a device-level applySettings with
colortemp zero on a color temperature light fails earlier, with TypeError
from HueLight.set, likewise before any write is issued. -/
theorem c10_divzero_where_reached :
    (HueColorTemperature.get {} recCt0).2 = .error .zeroDivisionError ∧
    (Accessory.parse devX2 recX0).2 = .error .zeroDivisionError ∧
    HueColorTemperature.set (some { min := 153, max := 500 })
        { colortemp := some 0 } = .error .zeroDivisionError ∧
    Accessory.set devX { colortemp := some 0 } = .error .typeError := by
  refine ⟨?_, ?_, rfl, rfl⟩
  · simp [HueColorTemperature.get, getKey, recCt0, Except.instMonad,
          Except.bind, Except.map, Except.pure, Bind.bind, Pure.pure]
  · rw [devX2_eq]
    simp [Accessory.parse, parseGo, Handler.get, HueGeneric.get, HueLight.get,
          HueColorTemperature.get, getKey, recX0, recX, updateChanged,
          dictGet, dictInsert, Except.instMonad, Except.bind, Except.map,
          Except.pure, Bind.bind, Pure.pure]
